import Mathlib

/-!
Verification of the service-lifecycle orchestration core of
`syssvc/openmanage-service-cli/main.go` (openconnectio/openmanage).

The Go file is a command-line client: global flags, a dispatcher in `main`,
per-service-type request builders, an initialization polling loop for
MongoDB creation, and a two-phase deletion workflow.  Each handler is
embedded below as a pure function over an explicit `Flags` record and over
the adapter's responses (the `client.ManageClient` calls), returning the
observable outcome: which adapter calls were made, what was reported, and
the process exit code (`os.Exit(-1)` is modelled as exit code `-1`; a
normal return from `main` as exit code `0`).
-/

namespace OpenManage

/-- Constant `defaultPGAdmin` from main.go line 54. -/
def defaultPGAdmin : String := "postgres"

/-- Operation name constants from main.go lines 56-62. -/
def opCreate : String := "create-service"

def opCheckInit : String := "check-service-init"

def opDelete : String := "delete-service"

def opList : String := "list-services"

def opGet : String := "get-service"

def opListMembers : String := "list-members"

def opGetConfig : String := "get-config"

/-- The parsed command-line flag values (the package-level `flag` globals of
main.go lines 24-51).  Go `int64` flags are modelled as `Int`; the only
operations on them here are equality comparison with zero and copying. -/
structure Flags where
  op : String
  serviceType : String
  cluster : String
  region : String
  service : String
  replicas : Int
  volSizeGB : Int
  cpuUnits : Int
  reserveMemMB : Int
  admin : String
  adminPasswd : String
  tlsEnabled : Bool
  caFile : String
  certFile : String
  keyFile : String
  replUser : String
  replUserPasswd : String
  serviceUUID : String
  fileID : String
deriving Repr, DecidableEq

/-- `manage.ServiceCommonRequest` as constructed in main.go. -/
structure ServiceCommonRequest where
  Region : String
  Cluster : String
  ServiceName : String
deriving Repr, DecidableEq

/-- `common.Resources` as constructed in main.go. -/
structure Resources where
  MaxCPUUnits : Int
  ReserveCPUUnits : Int
  MaxMemMB : Int
  ReserveMemMB : Int
deriving Repr, DecidableEq

/-- `manage.CatalogCreateMongoDBRequest` (fields used in main.go lines 185-201). -/
structure CatalogCreateMongoDBRequest where
  Service : ServiceCommonRequest
  Resource : Resources
  Replicas : Int
  VolumeSizeGB : Int
  Admin : String
  AdminPasswd : String
deriving Repr, DecidableEq

/-- `manage.CatalogCreatePostgreSQLRequest` (fields used in main.go lines 240-258). -/
structure CatalogCreatePostgreSQLRequest where
  Service : ServiceCommonRequest
  Resource : Resources
  Replicas : Int
  VolumeSizeGB : Int
  Admin : String
  AdminPasswd : String
  ReplUser : String
  ReplUserPasswd : String
deriving Repr, DecidableEq

/-- `common.ServiceMember` as consumed by main.go (`member.VolumeID`,
`member.Configs`); config entries are opaque to this core. -/
structure ServiceMember where
  VolumeID : String
  Configs : List String
deriving Repr, DecidableEq

/-- The MongoDB create request built at main.go lines 185-201: identity from
the region/cluster/service flags, resources duplicating `cpuUnits` into both
CPU fields and `reserveMemMB` into both memory fields, admin taken from the
`-admin` flag. -/
def buildMongoDBRequest (f : Flags) : CatalogCreateMongoDBRequest :=
  { Service :=
      { Region := f.region
        Cluster := f.cluster
        ServiceName := f.service }
    Resource :=
      { MaxCPUUnits := f.cpuUnits
        ReserveCPUUnits := f.cpuUnits
        MaxMemMB := f.reserveMemMB
        ReserveMemMB := f.reserveMemMB }
    Replicas := f.replicas
    VolumeSizeGB := f.volSizeGB
    Admin := f.admin
    AdminPasswd := f.adminPasswd }

/-- The PostgreSQL create request built at main.go lines 240-258: same common
fields as MongoDB, but `Admin` is the constant `defaultPGAdmin`, not the
`-admin` flag, and the replication credentials are added. -/
def buildPostgreSQLRequest (f : Flags) : CatalogCreatePostgreSQLRequest :=
  { Service :=
      { Region := f.region
        Cluster := f.cluster
        ServiceName := f.service }
    Resource :=
      { MaxCPUUnits := f.cpuUnits
        ReserveCPUUnits := f.cpuUnits
        MaxMemMB := f.reserveMemMB
        ReserveMemMB := f.reserveMemMB }
    Replicas := f.replicas
    VolumeSizeGB := f.volSizeGB
    Admin := defaultPGAdmin
    AdminPasswd := f.adminPasswd
    ReplUser := f.replUser
    ReplUserPasswd := f.replUserPasswd }

/-- One response of `cli.CatalogCheckServiceInit`: an error, or a boolean
`initialized` flag. -/
inductive CheckResp where
  | err (msg : String)
  | ok (initialized : Bool)
deriving Repr, DecidableEq

/-- The polling loop of `createMongoDBService` (main.go lines 218-228):

    for sec := int64(0); sec < W; sec += r {
      initialized, err := cli.CatalogCheckServiceInit(ctx, initReq)
      if err != nil { print; } else if initialized { return }
      sleep
    }

`c i` is the adapter's response to the `i`-th check call (0-based).  `W` is
`common.DefaultServiceWaitSeconds`, `r` is `common.DefaultRetryWaitSeconds`.
The result is the number of check calls made and whether the loop returned
with the service initialized.  `fuel` bounds the recursion; `W + 1` unfoldings
always suffice when `0 < r`, since `sec` grows by `r ≥ 1` per iteration. -/
def pollLoopFuel (c : Nat → CheckResp) (r W : Nat) : Nat → Nat → Nat → Nat × Bool
  | 0, _, _ => (0, false)
  | fuel + 1, tick, sec =>
    if sec < W then
      match c tick with
      | CheckResp.err _ =>
        let p := pollLoopFuel c r W fuel (tick + 1) (sec + r)
        (p.1 + 1, p.2)
      | CheckResp.ok true => (1, true)
      | CheckResp.ok false =>
        let p := pollLoopFuel c r W fuel (tick + 1) (sec + r)
        (p.1 + 1, p.2)
    else (0, false)

/-- The polling loop started from `sec = 0`, tick `0`, with sufficient fuel. -/
def pollRun (c : Nat → CheckResp) (r W : Nat) : Nat × Bool :=
  pollLoopFuel c r W (W + 1) 0 0

/-- Outcome of `createMongoDBService`. -/
inductive MongoOutcome where
  | invalidInput
  | createError (msg : String)
  | initialized
  | timedOut
deriving Repr, DecidableEq

/-- Observable behaviour of one `createMongoDBService` run. -/
structure MongoRun where
  createCalled : Bool
  checkCalls : Nat
  outcome : MongoOutcome
  exitCode : Int
deriving Repr, DecidableEq

/-- `createMongoDBService` (main.go lines 179-232): reject when the
`replicas` or `volume-size` flag equals 0 (exit -1, no adapter call);
otherwise call `CatalogCreateMongoDBService` (response `createResult`);
on error exit -1; on success poll `CatalogCheckServiceInit` until it reports
initialized (exit 0) or the wait budget `W` is exhausted (exit -1). -/
def runCreateMongoDB (f : Flags) (createResult : Except String Unit)
    (c : Nat → CheckResp) (r W : Nat) : MongoRun :=
  if f.replicas == 0 || f.volSizeGB == 0 then
    { createCalled := false, checkCalls := 0
      outcome := MongoOutcome.invalidInput, exitCode := -1 }
  else
    match createResult with
    | Except.error e =>
      { createCalled := true, checkCalls := 0
        outcome := MongoOutcome.createError e, exitCode := -1 }
    | Except.ok _ =>
      let p := pollRun c r W
      if p.2 then
        { createCalled := true, checkCalls := p.1
          outcome := MongoOutcome.initialized, exitCode := 0 }
      else
        { createCalled := true, checkCalls := p.1
          outcome := MongoOutcome.timedOut, exitCode := -1 }

/-- Outcome of `createPostgreSQLService`. -/
inductive PGOutcome where
  | invalidInput
  | createError (msg : String)
  | created
deriving Repr, DecidableEq

/-- Observable behaviour of one `createPostgreSQLService` run.  `checkCalls`
counts `CatalogCheckServiceInit` calls; the PostgreSQL handler makes none. -/
structure PGRun where
  createCalled : Bool
  checkCalls : Nat
  outcome : PGOutcome
  exitCode : Int
deriving Repr, DecidableEq

/-- `createPostgreSQLService` (main.go lines 234-267): same zero-value input
check as MongoDB, then `CatalogCreatePostgreSQLService`; on success it prints
"The postgresql service is created" and returns — it performs no
initialization polling and no `CatalogCheckServiceInit` call. -/
def runCreatePostgreSQL (f : Flags) (createResult : Except String Unit) : PGRun :=
  if f.replicas == 0 || f.volSizeGB == 0 then
    { createCalled := false, checkCalls := 0
      outcome := PGOutcome.invalidInput, exitCode := -1 }
  else
    match createResult with
    | Except.error e =>
      { createCalled := true, checkCalls := 0
        outcome := PGOutcome.createError e, exitCode := -1 }
    | Except.ok _ =>
      { createCalled := true, checkCalls := 0
        outcome := PGOutcome.created, exitCode := 0 }

/-- Adapter calls made by the deletion workflow, in order. -/
inductive DelCall where
  | listMembers
  | deleteSvc
deriving Repr, DecidableEq

/-- Observable behaviour of one `deleteService` run: the ordered adapter
calls, the volume IDs printed in the final report (`none` when the final
"please manually delete the EBS volumes" line is never reached), and the
exit code. -/
structure DeleteRun where
  calls : List DelCall
  reportedVolIDs : Option (List String)
  exitCode : Int
deriving Repr, DecidableEq

/-- `deleteService` (main.go lines 350-373) together with its helper
`listServiceMembers` (lines 329-348): call `ListServiceMember`; on error
print and exit -1 (inside the helper, so `DeleteService` is never reached);
on success collect each member's `VolumeID`, call `DeleteService`; on error
print and exit -1 — note the final line printing the volume IDs is only
reached when `DeleteService` succeeds. -/
def runDeleteService (listResult : Except String (List ServiceMember))
    (deleteResult : Except String Unit) : DeleteRun :=
  match listResult with
  | Except.error _ =>
    { calls := [DelCall.listMembers], reportedVolIDs := none, exitCode := -1 }
  | Except.ok members =>
    let volIDs := members.map (fun m => m.VolumeID)
    match deleteResult with
    | Except.error _ =>
      { calls := [DelCall.listMembers, DelCall.deleteSvc]
        reportedVolIDs := none, exitCode := -1 }
    | Except.ok _ =>
      { calls := [DelCall.listMembers, DelCall.deleteSvc]
        reportedVolIDs := some volIDs, exitCode := 0 }

/-- The message printed by the standalone `check-service-init` handler. -/
inductive CheckInitMsg where
  | errorMsg (e : String)
  | initializedMsg
  | initializingMsg
deriving Repr, DecidableEq

/-- `checkServiceInit` (main.go lines 269-292): calls
`CatalogCheckServiceInit` once.  On error it prints "check service init
error" and `return`s — control falls out of the `switch` in `main`, `main`
returns, and the process exits with status 0.  On success it prints whether
the service is initialized and likewise exits 0.  The second component is
the resulting process exit code. -/
def runCheckServiceInit (resp : Except String Bool) : CheckInitMsg × Int :=
  match resp with
  | Except.error e => (CheckInitMsg.errorMsg e, 0)
  | Except.ok true => (CheckInitMsg.initializedMsg, 0)
  | Except.ok false => (CheckInitMsg.initializingMsg, 0)

/-- Result of the validation performed by `main` before any adapter call. -/
inductive ValidateResult where
  | missingService
  | tlsIncomplete
  | passed
deriving Repr, DecidableEq

/-- The input validation at the top of `main` (main.go lines 94-101),
performed before the management client is constructed and before any
network call: the service name is required unless the operation is
`list-services`; and if `-tls-enabled` is set, each of the ca, cert and key
file paths must be non-empty.  Either violation prints a message and exits
-1. -/
def mainValidate (f : Flags) : ValidateResult :=
  if f.op != opList && f.service == "" then
    ValidateResult.missingService
  else if f.tlsEnabled && (f.caFile == "" || f.certFile == "" || f.keyFile == "") then
    ValidateResult.tlsIncomplete
  else
    ValidateResult.passed

/-- Number of the three TLS material paths that are set (non-empty); used to
state the spec's "exactly 1 or 2 of {ca, cert, key} set" property. -/
def tlsSetCount (f : Flags) : Nat :=
  (if f.caFile = "" then 0 else 1) + (if f.certFile = "" then 0 else 1) +
    (if f.keyFile = "" then 0 else 1)

/-- The check-init stub of the spec's poller property: "not initialized" for
the first `k` ticks (call indices `0, …, k-1`), "initialized" from tick
`k+1` (call index `k`) on. -/
def stubInitAfter (k : Nat) : Nat → CheckResp :=
  fun i => if i < k then CheckResp.ok false else CheckResp.ok true

/-- Replace every adapter error in a check-init response sequence by a plain
"not initialized" response. -/
def sanitizeErrors (c : Nat → CheckResp) : Nat → CheckResp :=
  fun i =>
    match c i with
    | CheckResp.err _ => CheckResp.ok false
    | x => x

/-- Example flag values: the spec's document-store creation scenario
(`replicas=3 volume-size=20`), used to instantiate theorems with hypotheses. -/
def fEx : Flags :=
  { op := opCreate
    serviceType := "mongodb"
    cluster := "default"
    region := "us-west-1"
    service := "svcA"
    replicas := 3
    volSizeGB := 20
    cpuUnits := 256
    reserveMemMB := 256
    admin := "dbadmin"
    adminPasswd := "changeme"
    tlsEnabled := false
    caFile := ""
    certFile := ""
    keyFile := ""
    replUser := "repluser"
    replUserPasswd := "replpassword"
    serviceUUID := ""
    fileID := "" }

/-- Example check-init stub: adapter errors on ticks 2 and 4 (call indices 1
and 3), "initialized" on tick 6 (call index 5), "not initialized" elsewhere. -/
def stubWithErrors : Nat → CheckResp :=
  fun i =>
    if i = 1 || i = 3 then CheckResp.err "transient"
    else if i = 5 then CheckResp.ok true
    else CheckResp.ok false

/-- Example flags with a strictly negative replica count. -/
def fNeg : Flags := { fEx with replicas := -1 }

/-- Example flags with a zero replica count. -/
def fZero : Flags := { fEx with replicas := 0 }

/-- Example flags for a delete invocation with TLS enabled and none of the
three TLS material paths set. -/
def fTLS : Flags := { fEx with op := opDelete, tlsEnabled := true }

/- ### Poller lemmas -/

/-- With adequate fuel, the polling loop starting at tick `t` (elapsed time
`t * r`) reports success exactly when some tick at or after `t` that still
falls inside the wait budget answers "initialized". -/
theorem pollLoopFuel_success (c : Nat → CheckResp) (r W : Nat) :
    ∀ fuel t, W ≤ (t + fuel) * r →
      ((pollLoopFuel c r W fuel t (t * r)).2 = true ↔
        ∃ i, t ≤ i ∧ i * r < W ∧ c i = CheckResp.ok true) := by
  intro fuel
  induction fuel with
  | zero =>
    intro t hW
    constructor
    · intro h
      simp [pollLoopFuel] at h
    · rintro ⟨i, hti, hir, -⟩
      have h1 : t * r ≤ i * r := Nat.mul_le_mul_right r hti
      simp at hW
      omega
  | succ fuel ih =>
    intro t hW
    by_cases hsec : t * r < W
    · have hstep : t * r + r = (t + 1) * r := by ring
      have hW' : W ≤ (t + 1 + fuel) * r := by
        have he : t + 1 + fuel = t + (fuel + 1) := by omega
        rw [he]
        exact hW
      have ihs := ih (t + 1) hW'
      rcases hc : c t with e | b
      · rw [show (pollLoopFuel c r W (fuel + 1) t (t * r)).2
              = (pollLoopFuel c r W fuel (t + 1) (t * r + r)).2 by
            simp [pollLoopFuel, hsec, hc]]
        rw [hstep, ihs]
        constructor
        · rintro ⟨i, h1, h2, h3⟩
          exact ⟨i, by omega, h2, h3⟩
        · rintro ⟨i, h1, h2, h3⟩
          refine ⟨i, ?_, h2, h3⟩
          rcases Nat.eq_or_lt_of_le h1 with h | h
          · rw [← h] at h3
            rw [h3] at hc
            exact absurd hc (by simp)
          · omega
      · cases b
        · rw [show (pollLoopFuel c r W (fuel + 1) t (t * r)).2
                = (pollLoopFuel c r W fuel (t + 1) (t * r + r)).2 by
              simp [pollLoopFuel, hsec, hc]]
          rw [hstep, ihs]
          constructor
          · rintro ⟨i, h1, h2, h3⟩
            exact ⟨i, by omega, h2, h3⟩
          · rintro ⟨i, h1, h2, h3⟩
            refine ⟨i, ?_, h2, h3⟩
            rcases Nat.eq_or_lt_of_le h1 with h | h
            · rw [← h] at h3
              rw [h3] at hc
              exact absurd hc (by simp)
            · omega
        · simp [pollLoopFuel, hsec, hc]
          exact ⟨t, le_refl t, hsec, hc⟩
    · simp [pollLoopFuel, hsec]
      intro i hti hir
      have h1 : t * r ≤ i * r := Nat.mul_le_mul_right r hti
      omega

/-- When the retry interval is positive, `pollRun` reports success exactly
when some tick inside the wait budget answers "initialized". -/
theorem pollRun_success (c : Nat → CheckResp) (r W : Nat) (hr : 0 < r) :
    ((pollRun c r W).2 = true ↔ ∃ i, i * r < W ∧ c i = CheckResp.ok true) := by
  have hfuel : W ≤ (0 + (W + 1)) * r := by
    have h1 : W + 1 ≤ (W + 1) * r := Nat.le_mul_of_pos_right (W + 1) hr
    simp only [Nat.zero_add]
    omega
  have h := pollLoopFuel_success c r W (W + 1) 0 hfuel
  rw [Nat.zero_mul] at h
  rw [pollRun, h]
  constructor
  · rintro ⟨i, -, h2, h3⟩
    exact ⟨i, h2, h3⟩
  · rintro ⟨i, h2, h3⟩
    exact ⟨i, Nat.zero_le i, h2, h3⟩

/-- Replacing adapter errors by "not initialized" responses leaves the
polling loop's entire behaviour unchanged: same number of check calls, same
outcome. -/
theorem pollLoopFuel_sanitize (c : Nat → CheckResp) (r W : Nat) :
    ∀ fuel t s, pollLoopFuel (sanitizeErrors c) r W fuel t s
      = pollLoopFuel c r W fuel t s := by
  intro fuel
  induction fuel with
  | zero =>
    intro t s
    rfl
  | succ fuel ih =>
    intro t s
    by_cases hsec : s < W
    · rcases hc : c t with e | b
      · have hs : sanitizeErrors c t = CheckResp.ok false := by
          simp [sanitizeErrors, hc]
        simp [pollLoopFuel, hsec, hc, hs, ih]
      · have hs : sanitizeErrors c t = CheckResp.ok b := by
          simp [sanitizeErrors, hc]
        cases b
        · simp [pollLoopFuel, hsec, hc, hs, ih]
        · simp [pollLoopFuel, hsec, hc, hs]
    · simp [pollLoopFuel, hsec]

/-- Replacing adapter errors by "not initialized" leaves `pollRun`
unchanged. -/
theorem pollRun_sanitize (c : Nat → CheckResp) (r W : Nat) :
    pollRun (sanitizeErrors c) r W = pollRun c r W :=
  pollLoopFuel_sanitize c r W (W + 1) 0 0

/-- A polling loop with fuel left and budget remaining makes at least one
check call. -/
theorem pollLoopFuel_pos (c : Nat → CheckResp) (r W fuel t s : Nat)
    (hf : 0 < fuel) (hs : s < W) : 1 ≤ (pollLoopFuel c r W fuel t s).1 := by
  cases fuel with
  | zero => omega
  | succ fuel =>
    rcases hc : c t with e | b
    · simp [pollLoopFuel, hs, hc]
    · cases b <;> simp [pollLoopFuel, hs, hc]

/-- With a positive wait budget, `pollRun` makes at least one check call. -/
theorem pollRun_pos (c : Nat → CheckResp) (r W : Nat) (hW : 0 < W) :
    1 ≤ (pollRun c r W).1 :=
  pollLoopFuel_pos c r W (W + 1) 0 0 (by omega) hW

/- ### Claim theorems -/

/-- C1 (counterexample): with one member carrying volume ID "vol-1"
successfully enumerated and a failing delete-service call, the claim says
the captured volume IDs are still reported before the nonzero exit; the
code exits -1 from the `DeleteService` error branch without ever reaching
the line that prints the volume IDs. -/
theorem deleteFail_volIDs_not_reported :
    (runDeleteService (Except.ok [{ VolumeID := "vol-1", Configs := [] }])
        (Except.error "delete failed")).reportedVolIDs = none ∧
      (runDeleteService (Except.ok [{ VolumeID := "vol-1", Configs := [] }])
        (Except.error "delete failed")).exitCode = -1 := by
  constructor <;> rfl

/-- C1 (amended): when delete-service fails after a successful enumerate,
the process exits -1 *without* reporting the captured volume IDs — both
adapter calls were made, but the volume-ID report line is reached only when
delete-service succeeds, in which case it lists every enumerated member's
volume ID. -/
theorem deleteService_volID_report (members : List ServiceMember) (e : String) :
    (runDeleteService (Except.ok members) (Except.error e)).reportedVolIDs = none ∧
      (runDeleteService (Except.ok members) (Except.error e)).exitCode = -1 ∧
      (runDeleteService (Except.ok members) (Except.error e)).calls
        = [DelCall.listMembers, DelCall.deleteSvc] ∧
      (runDeleteService (Except.ok members) (Except.ok ())).reportedVolIDs
        = some (members.map (fun m => m.VolumeID)) ∧
      (runDeleteService (Except.ok members) (Except.ok ())).exitCode = 0 := by
  refine ⟨rfl, rfl, rfl, rfl, rfl⟩

/-- C2: when the adapter's `CatalogCheckServiceInit` call returns an error
during the standalone check-init operation, the handler prints the error and
returns, so the process exits with status 0 — contradicting the claimed
uniform nonzero exit on any failure. -/
theorem checkServiceInit_error_exits_zero :
    (runCheckServiceInit (Except.error "network error")).2 = 0 ∧
      (runCheckServiceInit (Except.error "network error")).1
        = CheckInitMsg.errorMsg "network error" := by
  constructor <;> rfl

/-- C7: the PostgreSQL create request's admin is the fixed constant
"postgres" regardless of the `-admin` flag, while the MongoDB request's
admin is the caller-supplied flag value; all other common fields — service
identity, resources, replica count, volume size, admin password — come from
the caller's inputs in both variants. -/
theorem createRequest_admin_fields (f : Flags) :
    (buildPostgreSQLRequest f).Admin = "postgres" ∧
      (buildMongoDBRequest f).Admin = f.admin ∧
      (buildPostgreSQLRequest f).Service
        = { Region := f.region, Cluster := f.cluster, ServiceName := f.service } ∧
      (buildMongoDBRequest f).Service
        = { Region := f.region, Cluster := f.cluster, ServiceName := f.service } ∧
      (buildPostgreSQLRequest f).Resource = (buildMongoDBRequest f).Resource ∧
      (buildMongoDBRequest f).Resource.ReserveCPUUnits = f.cpuUnits ∧
      (buildMongoDBRequest f).Resource.ReserveMemMB = f.reserveMemMB ∧
      (buildPostgreSQLRequest f).Replicas = f.replicas ∧
      (buildMongoDBRequest f).Replicas = f.replicas ∧
      (buildPostgreSQLRequest f).VolumeSizeGB = f.volSizeGB ∧
      (buildMongoDBRequest f).VolumeSizeGB = f.volSizeGB ∧
      (buildPostgreSQLRequest f).AdminPasswd = f.adminPasswd ∧
      (buildMongoDBRequest f).AdminPasswd = f.adminPasswd := by
  refine ⟨rfl, rfl, rfl, rfl, rfl, rfl, rfl, rfl, rfl, rfl, rfl, rfl, rfl⟩

/-- C8: the deletion workflow always issues list-members first — in every
run the first adapter call is `listMembers`, and `deleteSvc`, when present,
comes strictly after it; and when list-members fails the run makes exactly
the single `listMembers` call and exits -1, so delete-service is never
issued. -/
theorem deleteService_order (lr : Except String (List ServiceMember))
    (dr : Except String Unit) (e : String) (h : lr = Except.error e) :
    (∀ (lr' : Except String (List ServiceMember)) (dr' : Except String Unit),
        (runDeleteService lr' dr').calls.head? = some DelCall.listMembers ∧
          (DelCall.deleteSvc ∈ (runDeleteService lr' dr').calls →
            (runDeleteService lr' dr').calls
              = [DelCall.listMembers, DelCall.deleteSvc])) ∧
      (runDeleteService lr dr).calls = [DelCall.listMembers] ∧
      (runDeleteService lr dr).exitCode = -1 ∧
      DelCall.deleteSvc ∉ (runDeleteService lr dr).calls := by
  subst h
  refine ⟨?_, rfl, rfl, by simp [runDeleteService]⟩
  intro lr' dr'
  rcases lr' with e' | members
  · exact ⟨rfl, by simp [runDeleteService]⟩
  · rcases dr' with e'' | u
    · exact ⟨rfl, fun _ => rfl⟩
    · exact ⟨rfl, fun _ => rfl⟩

/-- C8 (witness): the order theorem applied to a concrete failing
list-members call. -/
theorem deleteService_order_witness :
    (runDeleteService (Except.error "enumerate failed") (Except.ok ())).calls
        = [DelCall.listMembers] ∧
      (runDeleteService (Except.error "enumerate failed") (Except.ok ())).exitCode = -1 :=
  ⟨(deleteService_order (Except.error "enumerate failed") (Except.ok ())
      "enumerate failed" rfl).2.1,
    (deleteService_order (Except.error "enumerate failed") (Except.ok ())
      "enumerate failed" rfl).2.2.1⟩

/-- C3 (counterexample): flags with `replicas = -1` (strictly negative).
The claim says every create request with replicaCount ≤ 0 is rejected
before any adapter call; the code only tests `== 0`, so the create call is
made and the run does not end in the invalid-input outcome. -/
theorem negativeReplicas_not_rejected :
    fNeg.replicas ≤ 0 ∧
      (runCreateMongoDB fNeg (Except.ok ()) (fun _ => CheckResp.ok true)
          10 100).createCalled = true ∧
      (runCreateMongoDB fNeg (Except.ok ()) (fun _ => CheckResp.ok true)
          10 100).outcome ≠ MongoOutcome.invalidInput := by
  refine ⟨by decide, by decide, by decide⟩

/-- C3 (amended): both create handlers reject — with exit -1 and before any
adapter call — exactly when the replica count or the volume size equals 0;
any other values, strictly negative ones included, pass the check and the
adapter's create call is issued. -/
theorem createValidation_zero_rejects (f : Flags) (cr : Except String Unit)
    (c : Nat → CheckResp) (r W : Nat) (h : f.replicas = 0 ∨ f.volSizeGB = 0) :
    (runCreateMongoDB f cr c r W).createCalled = false ∧
      (runCreateMongoDB f cr c r W).outcome = MongoOutcome.invalidInput ∧
      (runCreateMongoDB f cr c r W).exitCode = -1 ∧
      (runCreatePostgreSQL f cr).createCalled = false ∧
      (runCreatePostgreSQL f cr).outcome = PGOutcome.invalidInput ∧
      (runCreatePostgreSQL f cr).exitCode = -1 ∧
      (∀ f' : Flags, f'.replicas ≠ 0 → f'.volSizeGB ≠ 0 →
        (runCreateMongoDB f' cr c r W).createCalled = true ∧
          (runCreatePostgreSQL f' cr).createCalled = true) := by
  have hpass : ∀ f' : Flags, f'.replicas ≠ 0 → f'.volSizeGB ≠ 0 →
      (runCreateMongoDB f' cr c r W).createCalled = true ∧
        (runCreatePostgreSQL f' cr).createCalled = true := by
    intro f' h1 h2
    rcases cr with e | u <;>
      simp [runCreateMongoDB, runCreatePostgreSQL, h1, h2] <;>
      by_cases hp : (pollRun c r W).2 <;> simp [hp]
  rcases h with h | h <;>
    exact ⟨by simp [runCreateMongoDB, h], by simp [runCreateMongoDB, h],
      by simp [runCreateMongoDB, h], by simp [runCreatePostgreSQL, h],
      by simp [runCreatePostgreSQL, h], by simp [runCreatePostgreSQL, h], hpass⟩

/-- C3 (witness): the amended validation theorem applied to flags with
`replicas = 0`. -/
theorem createValidation_zero_rejects_witness :
    (runCreateMongoDB fZero (Except.ok ()) (fun _ => CheckResp.ok true)
        10 100).outcome = MongoOutcome.invalidInput ∧
      (runCreatePostgreSQL fZero (Except.ok ())).createCalled = false :=
  ⟨(createValidation_zero_rejects fZero (Except.ok ())
      (fun _ => CheckResp.ok true) 10 100 (Or.inl rfl)).2.1,
    (createValidation_zero_rejects fZero (Except.ok ())
      (fun _ => CheckResp.ok true) 10 100 (Or.inl rfl)).2.2.2.1⟩

/-- C4 (counterexample): a successful PostgreSQL creation with valid flags
terminates with exit 0 after making zero check-initialization calls — the
relational-store variant never enters the Initialization Poller, contrary
to the claim that every variant does. -/
theorem pgCreate_no_poll :
    (runCreatePostgreSQL fEx (Except.ok ())).createCalled = true ∧
      (runCreatePostgreSQL fEx (Except.ok ())).checkCalls = 0 ∧
      (runCreatePostgreSQL fEx (Except.ok ())).outcome = PGOutcome.created ∧
      (runCreatePostgreSQL fEx (Except.ok ())).exitCode = 0 := by
  refine ⟨by decide, by decide, by decide, by decide⟩

/-- C4 (amended): only the document-store (MongoDB) variant enters the
Initialization Poller after a successful creation call — it makes at least
one check-initialization call (given a positive wait budget) and ends in
Initialized or TimedOut — while the relational-store (PostgreSQL) variant
reports success immediately, with zero check-initialization calls. -/
theorem create_poll_only_mongo (f : Flags) (c : Nat → CheckResp) (r W : Nat)
    (hrep : f.replicas ≠ 0) (hvol : f.volSizeGB ≠ 0) (hW : 0 < W) :
    1 ≤ (runCreateMongoDB f (Except.ok ()) c r W).checkCalls ∧
      ((runCreateMongoDB f (Except.ok ()) c r W).outcome = MongoOutcome.initialized ∨
        (runCreateMongoDB f (Except.ok ()) c r W).outcome = MongoOutcome.timedOut) ∧
      (runCreatePostgreSQL f (Except.ok ())).checkCalls = 0 ∧
      (runCreatePostgreSQL f (Except.ok ())).outcome = PGOutcome.created ∧
      (runCreatePostgreSQL f (Except.ok ())).exitCode = 0 := by
  have hpos := pollRun_pos c r W hW
  by_cases hp : (pollRun c r W).2 <;>
    simp [runCreateMongoDB, runCreatePostgreSQL, hrep, hvol, hp, hpos]

/-- C4 (witness): the amended theorem applied to the example flags and an
immediately-initialized stub. -/
theorem create_poll_only_mongo_witness :
    1 ≤ (runCreateMongoDB fEx (Except.ok ()) (fun _ => CheckResp.ok true)
        10 100).checkCalls ∧
      (runCreatePostgreSQL fEx (Except.ok ())).checkCalls = 0 :=
  ⟨(create_poll_only_mongo fEx (fun _ => CheckResp.ok true) 10 100
      (by decide) (by decide) (by decide)).1,
    (create_poll_only_mongo fEx (fun _ => CheckResp.ok true) 10 100
      (by decide) (by decide) (by decide)).2.2.1⟩

/-- C5: against a stub answering "not initialized" for the first `k` ticks
and "initialized" from tick `k+1` on, the MongoDB creation poller succeeds
(Initialized, exit 0) exactly when `k * interval < waitBudget`; otherwise it
times out (TimedOut, exit -1). -/
theorem poller_success_iff (k r W : Nat) (f : Flags) (hr : 0 < r)
    (hrep : f.replicas ≠ 0) (hvol : f.volSizeGB ≠ 0) :
    (k * r < W →
        (runCreateMongoDB f (Except.ok ()) (stubInitAfter k) r W).outcome
            = MongoOutcome.initialized ∧
          (runCreateMongoDB f (Except.ok ()) (stubInitAfter k) r W).exitCode = 0) ∧
      (¬ k * r < W →
        (runCreateMongoDB f (Except.ok ()) (stubInitAfter k) r W).outcome
            = MongoOutcome.timedOut ∧
          (runCreateMongoDB f (Except.ok ()) (stubInitAfter k) r W).exitCode = -1) := by
  have hkey : ((pollRun (stubInitAfter k) r W).2 = true ↔ k * r < W) := by
    rw [pollRun_success (stubInitAfter k) r W hr]
    constructor
    · rintro ⟨i, hi, hci⟩
      have hik : ¬ i < k := by
        intro hik
        simp [stubInitAfter, hik] at hci
      have hki : k ≤ i := by omega
      have := Nat.mul_le_mul_right r hki
      omega
    · intro hk
      exact ⟨k, hk, by simp [stubInitAfter]⟩
  constructor
  · intro hk
    have h2 : (pollRun (stubInitAfter k) r W).2 = true := hkey.mpr hk
    simp [runCreateMongoDB, hrep, hvol, h2]
  · intro hk
    have h2 : (pollRun (stubInitAfter k) r W).2 = false := by
      rcases Bool.eq_false_or_eq_true (pollRun (stubInitAfter k) r W).2 with h | h
      · exact absurd (hkey.mp h) hk
      · exact h
    simp [runCreateMongoDB, hrep, hvol, h2]

/-- C5 (witness): with interval 10, budget 100 and `k = 3`
(`3 * 10 < 100`), the poller succeeds. -/
theorem poller_success_iff_witness :
    (runCreateMongoDB fEx (Except.ok ()) (stubInitAfter 3) 10 100).outcome
        = MongoOutcome.initialized ∧
      (runCreateMongoDB fEx (Except.ok ()) (stubInitAfter 3) 10 100).exitCode = 0 :=
  (poller_success_iff 3 10 100 fEx (by decide) (by decide) (by decide)).1 (by decide)

/-- C6: adapter errors during polling are transient: if some tick `j`
within the wait budget answers "initialized", the MongoDB creation run ends
Initialized with exit 0 no matter what the other ticks answered (errors
included); moreover replacing every error response by "not initialized"
leaves the entire polling behaviour — check-call count and outcome —
unchanged, so interleaved errors neither abort the loop nor reset the
budget nor change the number of ticks until timeout. -/
theorem poller_errors_transient (c : Nat → CheckResp) (r W j : Nat) (f : Flags)
    (hr : 0 < r) (hj : j * r < W) (hcj : c j = CheckResp.ok true)
    (hrep : f.replicas ≠ 0) (hvol : f.volSizeGB ≠ 0) :
    (runCreateMongoDB f (Except.ok ()) c r W).outcome = MongoOutcome.initialized ∧
      (runCreateMongoDB f (Except.ok ()) c r W).exitCode = 0 ∧
      (∀ (c' : Nat → CheckResp) (r' W' : Nat),
        pollRun (sanitizeErrors c') r' W' = pollRun c' r' W') := by
  have h2 : (pollRun c r W).2 = true :=
    (pollRun_success c r W hr).mpr ⟨j, hj, hcj⟩
  refine ⟨?_, ?_, fun c' r' W' => pollRun_sanitize c' r' W'⟩ <;>
    simp [runCreateMongoDB, hrep, hvol, h2]

/-- C6 (witness): the spec's example — errors on ticks 2 and 4,
"initialized" on tick 6 of a 10-tick budget — still succeeds, and
sanitizing the errors changes nothing. -/
theorem poller_errors_transient_witness :
    (runCreateMongoDB fEx (Except.ok ()) stubWithErrors 10 100).outcome
        = MongoOutcome.initialized ∧
      pollRun (sanitizeErrors stubWithErrors) 10 100 = pollRun stubWithErrors 10 100 :=
  ⟨(poller_errors_transient stubWithErrors 10 100 5 fEx (by decide) (by decide)
      (by decide) (by decide) (by decide)).1,
    (poller_errors_transient stubWithErrors 10 100 5 fEx (by decide) (by decide)
      (by decide) (by decide) (by decide)).2.2 stubWithErrors 10 100⟩

/-- C9 (counterexample): TLS enabled with zero of the three material paths
set and a valid service name.  The claim says a configuration with 0 of
{ca, cert, key} set is accepted; `main`'s validation rejects it
(`tls enabled without ca file …`, exit -1). -/
theorem tls_zero_set_rejected :
    tlsSetCount fTLS = 0 ∧ fTLS.tlsEnabled = true ∧ fTLS.service ≠ "" ∧
      mainValidate fTLS = ValidateResult.tlsIncomplete := by
  refine ⟨by decide, by decide, by decide, by decide⟩

/-- C9 (amended): when TLS is enabled, the invocation is rejected before
any network call exactly when at least one of the ca/cert/key paths is
empty — so with 0, 1 or 2 of the three set it is rejected, and only with
all 3 set it proceeds; when TLS is disabled the paths are not examined and
validation passes regardless of how many are set. -/
theorem mainValidate_tls_iff (f : Flags) (h : f.op = opList ∨ f.service ≠ "") :
    (mainValidate f = ValidateResult.tlsIncomplete ↔
        f.tlsEnabled = true ∧
          (f.caFile = "" ∨ f.certFile = "" ∨ f.keyFile = "")) ∧
      (f.tlsEnabled = false → mainValidate f = ValidateResult.passed) ∧
      (f.tlsEnabled = true → f.caFile ≠ "" → f.certFile ≠ "" → f.keyFile ≠ "" →
        mainValidate f = ValidateResult.passed) := by
  have h1 : (f.op != opList && f.service == "") = false := by
    rcases h with h | h <;> simp [h]
  by_cases htls : f.tlsEnabled
  · by_cases hca : f.caFile = ""
    · simp [mainValidate, h1, htls, hca]
    · by_cases hcert : f.certFile = ""
      · simp [mainValidate, h1, htls, hca, hcert]
      · by_cases hkey : f.keyFile = ""
        · simp [mainValidate, h1, htls, hca, hcert, hkey]
        · simp [mainValidate, h1, htls, hca, hcert, hkey]
  · simp [mainValidate, h1, htls]

/-- C9 (witness): the amended theorem applied to the TLS-enabled example
flags with all three paths empty. -/
theorem mainValidate_tls_iff_witness :
    mainValidate fTLS = ValidateResult.tlsIncomplete :=
  (mainValidate_tls_iff fTLS (Or.inr (by decide))).1.mpr ⟨rfl, Or.inl rfl⟩

/-- C10: in both create-request variants the resource specification copies
the single `cpu-units` flag into both `MaxCPUUnits` and `ReserveCPUUnits`
and the single `soft-memory` flag into both `MaxMemMB` and `ReserveMemMB`,
so max equals reserve by construction in every request. -/
theorem resources_max_eq_reserve (f : Flags) :
    (buildMongoDBRequest f).Resource.MaxCPUUnits
        = (buildMongoDBRequest f).Resource.ReserveCPUUnits ∧
      (buildMongoDBRequest f).Resource.MaxMemMB
        = (buildMongoDBRequest f).Resource.ReserveMemMB ∧
      (buildPostgreSQLRequest f).Resource.MaxCPUUnits
        = (buildPostgreSQLRequest f).Resource.ReserveCPUUnits ∧
      (buildPostgreSQLRequest f).Resource.MaxMemMB
        = (buildPostgreSQLRequest f).Resource.ReserveMemMB ∧
      (buildMongoDBRequest f).Resource.MaxCPUUnits = f.cpuUnits ∧
      (buildMongoDBRequest f).Resource.MaxMemMB = f.reserveMemMB ∧
      (buildPostgreSQLRequest f).Resource.MaxCPUUnits = f.cpuUnits ∧
      (buildPostgreSQLRequest f).Resource.MaxMemMB = f.reserveMemMB := by
  refine ⟨rfl, rfl, rfl, rfl, rfl, rfl, rfl, rfl⟩

end OpenManage
